import Mathlib

/-!
Shallow embedding of the Monte-Carlo simulation infrastructure of the
`simulations-course` repository, together with theorems settling the
specification claims about it.

The embedding covers:
* the per-replication seed rule of `SimulationRunner.simulate`
  (`example-codes/1-minimum-design-example/runner.py` and
  `example-codes/2-joint-vs-multiple-tests/sim_infrastructure/runner.py`);
* the runner loops of both examples (estimator runner recording
  `beta1_hat - beta1`, test runner recording test decisions);
* the scenario grids built with `itertools.product`;
* the dict-based `SimulationOrchestrator` of the minimum-design example and
  the list-based sequential/parallel orchestrators of the
  joint-vs-multiple-tests example;
* exception propagation (modelled with `Except`);
* the Wald and Bonferroni test decision rules;
* `asymptotic_ci_variance` of the confidence-interval example.

Numeric values that Python holds as floats are modelled as rationals; calls
into numeric libraries (numpy sampling, statsmodels OLS fits, scipy
`norm.ppf`, `np.sqrt`) are modelled as oracle parameters, since the spec
places library internals out of scope.
-/

namespace SimCourse

/-! ### The seed rule shared by both runners

Python source (both `runner.py` files, line 54):
`seed=first_seed + sim_id if first_seed else None`.
`first_seed` is `int | None`; the conditional tests Python truthiness, so
both `None` and `0` select the `None` branch. -/

/-- Seed argument passed to `dgp.sample` in replication `sim_id`:
`first_seed + sim_id if first_seed else None` with Python truthiness
(`None` and `0` are falsy). -/
def seedArg (first_seed : Option Int) (sim_id : Nat) : Option Int :=
  match first_seed with
  | none => none
  | some s => if s = 0 then none else some (s + sim_id)

/-! ### Minimum-design example: DGP, estimator and runner

`example-codes/1-minimum-design-example/runner.py`.  The DGP's `sample` and
the estimator's `fit` call numpy / sklearn, so they are oracle fields; the
estimator is mutated in place by `fit`, which we model by threading an
explicit estimator state `σ` through the loop. -/

/-- A data-generating process of the minimum-design example: a `sample`
method taking `(n_obs, seed)` and a `beta1` attribute. -/
structure DGP1 (Data : Type) where
  sample : Nat → Option Int → Data
  beta1 : ℚ

/-- An estimator of the minimum-design example: construction state, a
mutating `fit`, and a `beta1_hat` attribute read after `fit`. -/
structure Estimator1 (Data σ : Type) where
  init : σ
  fit : σ → Data → σ
  beta1_hat : σ → ℚ

/-- One observable event of a runner loop: a call to `dgp.sample` with its
arguments, or a call to the estimator's `fit` (resp. the test's `test`)
with the sampled data. -/
inductive RunEvent (Data : Type) where
  | sampleCall (n_obs : Nat) (seed : Option Int) : RunEvent Data
  | fitCall (d : Data) : RunEvent Data
deriving DecidableEq, Repr

/-- State accumulated by the `simulate` loop of the minimum-design runner:
the estimator state, the `errors` array built so far, and the trace of
`sample`/`fit` calls made so far. -/
structure RunAcc1 (Data σ : Type) where
  est : σ
  errors : List ℚ
  events : List (RunEvent Data)

/-- `SimulationRunner.simulate` of the minimum-design example
(`runner.py`, lines 38-59): for `sim_id in range(n_sim)`, draw
`(x, y) = dgp.sample(n_obs, seed=first_seed + sim_id if first_seed else None)`,
call `estimator.fit(x, y)`, and store
`errors[sim_id] = estimator.beta1_hat - dgp.beta1`.  Returns the final
estimator state, the `errors` array and the call trace. -/
def simulate1 {Data σ : Type} (dgp : DGP1 Data) (est : Estimator1 Data σ)
    (n_sim n_obs : Nat) (first_seed : Option Int) : RunAcc1 Data σ :=
  (List.range n_sim).foldl
    (fun acc sim_id =>
      let seed := seedArg first_seed sim_id
      let d := dgp.sample n_obs seed
      let s := est.fit acc.est d
      { est := s
        errors := acc.errors ++ [est.beta1_hat s - dgp.beta1]
        events := acc.events ++ [.sampleCall n_obs seed, .fitCall d] })
    { est := est.init, errors := [], events := [] }

/-- Estimator state after the first `k` replications of `simulate1`
(the state the `i`-th stored error is read from is `estState1 (i+1)`). -/
def estState1 {Data σ : Type} (dgp : DGP1 Data) (est : Estimator1 Data σ)
    (n_obs : Nat) (first_seed : Option Int) : Nat → σ
  | 0 => est.init
  | k + 1 =>
      est.fit (estState1 dgp est n_obs first_seed k)
        (dgp.sample n_obs (seedArg first_seed k))

/-! ### Joint-vs-multiple-tests example: DGP, test and runner

`example-codes/2-joint-vs-multiple-tests/sim_infrastructure/runner.py`.
Identical loop, but the component applied to the data is a statistical test
whose boolean `decision` attribute is stored (the numpy array holds it as a
0/1 float, modelled as the rational `boolToRat`). -/

/-- A data-generating process of the joint-vs-multiple-tests example:
`sample(n_obs, seed)` plus the `covar_corr` and `common_coef_val`
attributes read by `summarize_results`. -/
structure DGP2 (Data : Type) where
  sample : Nat → Option Int → Data
  covar_corr : ℚ
  common_coef_val : ℚ

/-- A statistical test of the joint-vs-multiple-tests example: construction
state, a mutating `test`, and the `decision` and `name` attributes. -/
structure StatTest (Data τ : Type) where
  init : τ
  test : τ → Data → τ
  decision : τ → Bool
  name : String

/-- Value a boolean takes when stored into the float `test_decisions`
array. -/
def boolToRat (b : Bool) : ℚ := if b then 1 else 0

/-- State accumulated by the `simulate` loop of the test runner: the test
state, the `test_decisions` array built so far, and the call trace. -/
structure RunAcc2 (Data τ : Type) where
  test : τ
  test_decisions : List ℚ
  events : List (RunEvent Data)

/-- `SimulationRunner.simulate` of the joint-vs-multiple-tests example
(`sim_infrastructure/runner.py`, lines 38-59): for `sim_id in range(n_sim)`,
draw `(x, y)` with the same seed rule, call `test.test(x, y)`, and store
`test_decisions[sim_id] = test.decision`. -/
def simulate2 {Data τ : Type} (dgp : DGP2 Data) (tst : StatTest Data τ)
    (n_sim n_obs : Nat) (first_seed : Option Int) : RunAcc2 Data τ :=
  (List.range n_sim).foldl
    (fun acc sim_id =>
      let seed := seedArg first_seed sim_id
      let d := dgp.sample n_obs seed
      let t := tst.test acc.test d
      { test := t
        test_decisions := acc.test_decisions ++ [boolToRat (tst.decision t)]
        events := acc.events ++ [.sampleCall n_obs seed, .fitCall d] })
    { test := tst.init, test_decisions := [], events := [] }

/-- Test state after the first `k` replications of `simulate2`. -/
def testState2 {Data τ : Type} (dgp : DGP2 Data) (tst : StatTest Data τ)
    (n_obs : Nat) (first_seed : Option Int) : Nat → τ
  | 0 => tst.init
  | k + 1 =>
      tst.test (testState2 dgp tst n_obs first_seed k)
        (dgp.sample n_obs (seedArg first_seed k))

/-- The event trace of one complete replication `i`: one `sample` call with
the seed of replication `i`, followed by one `fit`/`test` call on the
sampled data. -/
def replicationEvents {Data : Type} (dgp_sample : Nat → Option Int → Data)
    (n_obs : Nat) (first_seed : Option Int) (i : Nat) : List (RunEvent Data) :=
  [.sampleCall n_obs (seedArg first_seed i),
   .fitCall (dgp_sample n_obs (seedArg first_seed i))]

/-! ### Scenario grid of the minimum-design example

`src/python-codes/1-minimum-design-example/scenarios.py`. -/

/-- The DGP classes of the minimum-design example. -/
inductive DGPClass1 where
  | staticNormalDGP
  | dynamicNormalDGP
deriving DecidableEq, Repr

/-- `dgp_class.__name__.lower()`. -/
def DGPClass1.lowerName : DGPClass1 → String
  | .staticNormalDGP => "staticnormaldgp"
  | .dynamicNormalDGP => "dynamicnormaldgp"

/-- The estimator classes of the minimum-design example. -/
inductive EstClass1 where
  | simpleOLS
  | lassoWrapper
  | simpleRidge
deriving DecidableEq, Repr

/-- `estimator_class.__name__.lower()`. -/
def EstClass1.lowerName : EstClass1 → String
  | .simpleOLS => "simpleols"
  | .lassoWrapper => "lassowrapper"
  | .simpleRidge => "simpleridge"

/-- The frozen dataclass `SimulationScenario` of the minimum-design example:
DGP and estimator classes with their keyword-argument dicts, sample size,
`n_simulations = 1000` and `first_seed = 1` by default. -/
structure SimulationScenario1 where
  name : String
  dgp : DGPClass1
  dgp_params : List (String × ℚ)
  estimator : EstClass1
  estimator_params : List (String × ℚ)
  sample_size : Nat
  n_simulations : Nat := 1000
  first_seed : Int := 1
deriving DecidableEq, Repr

/-- The `dgps` component list (class, params dict, description). -/
def dgps1 : List (DGPClass1 × List (String × ℚ) × String) :=
  [(.staticNormalDGP, [("beta0", 0), ("beta1", 1)], "static"),
   (.dynamicNormalDGP, [("beta0", 0), ("beta1", 1/10)], "low_pers"),
   (.dynamicNormalDGP, [("beta0", 0), ("beta1", 1/2)], "mid_pers"),
   (.dynamicNormalDGP, [("beta0", 0), ("beta1", 19/20)], "high_pers")]

/-- The `estimators` component list (class, params dict). -/
def estimators1 : List (EstClass1 × List (String × ℚ)) :=
  [(.simpleOLS, []),
   (.lassoWrapper, [("reg_param", 1/10)]),
   (.simpleRidge, [("reg_param", 1/10)])]

/-- The `sample_sizes` component list. -/
def sample_sizes1 : List Nat := [50, 200]

/-- The scenario name
`f"\x7bdgp_class.__name__.lower()\x7d_\x7bdgp_descr\x7d_\x7bestimator_class.__name__.lower()\x7d_n\x7bsize\x7d"`. -/
def scenarioName1 (dgp_class : DGPClass1) (dgp_descr : String)
    (est_class : EstClass1) (size : Nat) : String :=
  dgp_class.lowerName ++ "_" ++ dgp_descr ++ "_" ++ est_class.lowerName
    ++ "_n" ++ toString size

/-- The module-level `scenarios` list comprehension over
`product(dgps, estimators, sample_sizes)` (rightmost component varying
fastest, as `itertools.product` iterates). -/
def scenarios1 : List SimulationScenario1 :=
  dgps1.flatMap (fun d =>
    estimators1.flatMap (fun e =>
      sample_sizes1.map (fun size =>
        { name := scenarioName1 d.1 d.2.2 e.1 size
          dgp := d.1
          dgp_params := d.2.1
          estimator := e.1
          estimator_params := e.2
          sample_size := size })))

/-! ### Dict-based orchestrator of the minimum-design example

`1-minimum-design-example/orchestrator.py`.  The constructors
`scenario.dgp(**scenario.dgp_params)` and
`scenario.estimator(**scenario.estimator_params)` build numpy-backed
objects, so they are oracle parameters (`Interp1`). -/

/-- Oracle interpretation of the Python class constructors of the
minimum-design example. -/
structure Interp1 (Data σ : Type) where
  mkDGP : DGPClass1 → List (String × ℚ) → DGP1 Data
  mkEstimator : EstClass1 → List (String × ℚ) → Estimator1 Data σ

/-- `np.ndarray.mean()`: sum divided by length. -/
def listMean (l : List ℚ) : ℚ := l.sum / l.length

/-- Python dict assignment `d[k] = v` on a dict represented as its ordered
entry list: overwrite in place when the key is present, append otherwise
(insertion order preserved). -/
def dictAssign {β : Type} (d : List (String × β)) (k : String) (v : β) :
    List (String × β) :=
  match d with
  | [] => [(k, v)]
  | p :: rest => if p.1 = k then (k, v) :: rest else p :: dictAssign rest k v

/-- Python dict read `d[k]` (as an option). -/
def dictGet {β : Type} (d : List (String × β)) (k : String) : Option β :=
  match d with
  | [] => none
  | p :: rest => if p.1 = k then some p.2 else dictGet rest k

/-- The per-scenario work of `SimulationOrchestrator.run_all`: build the
DGP and estimator from the scenario, run a fresh `SimulationRunner`, and
return `runner.errors.mean()`. -/
def runScenario1 {Data σ : Type} (interp : Interp1 Data σ)
    (s : SimulationScenario1) : ℚ :=
  let dgp := interp.mkDGP s.dgp s.dgp_params
  let est := interp.mkEstimator s.estimator s.estimator_params
  listMean (simulate1 dgp est s.n_simulations s.sample_size (some s.first_seed)).errors

/-- `SimulationOrchestrator.run_all` (`orchestrator.py`): for each scenario
in order, run its simulation and store the mean error under
`self.summary_results[scenario.name]`. -/
def runAll1 {Data σ : Type} (interp : Interp1 Data σ)
    (scens : List SimulationScenario1) : List (String × ℚ) :=
  scens.foldl (fun d s => dictAssign d s.name (runScenario1 interp s)) []

/-! ### Scenario grid of the joint-vs-multiple-tests example

`2-joint-vs-multiple-tests/sim_infrastructure/scenarios.py`. -/

/-- The single DGP class of the joint-vs-multiple-tests example. -/
inductive DGPClass2 where
  | bivariateLinearModel
deriving DecidableEq, Repr

/-- The test classes of the joint-vs-multiple-tests example. -/
inductive TestClass2 where
  | waldWithOLS
  | bonferronigMultipleTWithOLS
deriving DecidableEq, Repr

/-- The frozen dataclass `SimulationScenario` of the
joint-vs-multiple-tests example, with `n_simulations = 500` and
`first_seed = 1` by default. -/
structure SimulationScenario2 where
  name : String
  dgp : DGPClass2
  dgp_params : List (String × ℚ)
  test : TestClass2
  test_params : List (String × ℚ)
  sample_size : Nat
  n_simulations : Nat := 500
  first_seed : Int := 1
deriving DecidableEq, Repr

/-- `np.linspace(start, stop, num)`: `num` evenly spaced points from
`start` to `stop` inclusive (float arithmetic modelled exactly over ℚ). -/
def linspace (start stop : ℚ) (num : Nat) : List ℚ :=
  (List.range num).map
    (fun i : Nat => start + (stop - start) * (i : ℚ) / ((num : ℚ) - 1))

/-- `common_coef_vals = np.linspace(-1.75, 1.75, 231)`. -/
def common_coef_vals : List ℚ := linspace (-7/4) (7/4) 231

/-- `covar_corr_vals = np.linspace(-0.99, 0.99, 51)`. -/
def covar_corr_vals : List ℚ := linspace (-99/100) (99/100) 51

/-- `dgp_list`: one `(BivariateLinearModel, params)` entry per element of
`product(common_coef_vals, covar_corr_vals)`. -/
def dgp_list2 : List (DGPClass2 × List (String × ℚ)) :=
  common_coef_vals.flatMap (fun c =>
    covar_corr_vals.map (fun r =>
      (.bivariateLinearModel, [("common_coef_val", c), ("covar_corr", r)])))

/-- The `tests` component list. -/
def tests2 : List (TestClass2 × List (String × ℚ)) :=
  [(.waldWithOLS, []), (.bonferronigMultipleTWithOLS, [])]

/-- The `sample_sizes` component list. -/
def sample_sizes2 : List Nat := [200]

/-- The module-level `scenarios` list comprehension over
`product(dgp_list, tests, sample_sizes)`, every scenario named `""`. -/
def scenarios2 : List SimulationScenario2 :=
  dgp_list2.flatMap (fun d =>
    tests2.flatMap (fun t =>
      sample_sizes2.map (fun size =>
        { name := ""
          dgp := d.1
          dgp_params := d.2
          test := t.1
          test_params := t.2
          sample_size := size })))

/-! ### Sequential and parallel orchestrators of example 2

`2-joint-vs-multiple-tests/sim_infrastructure/orchestrators.py`. -/

/-- Oracle interpretation of the Python class constructors of the
joint-vs-multiple-tests example. -/
structure Interp2 (Data τ : Type) where
  mkDGP : DGPClass2 → List (String × ℚ) → DGP2 Data
  mkTest : TestClass2 → List (String × ℚ) → StatTest Data τ

/-- The dict returned by `SimulationRunner.summarize_results`. -/
structure Summary2 where
  test : String
  rho : ℚ
  common_coef_val : ℚ
  power : ℚ
deriving DecidableEq, Repr

/-- `SimulationRunner.summarize_results` (`runner.py`, lines 61-72): test
name, DGP characteristics, and `test_decisions.mean()` as the power. -/
def summarizeResults2 {Data τ : Type} (dgp : DGP2 Data) (tst : StatTest Data τ)
    (r : RunAcc2 Data τ) : Summary2 :=
  { test := tst.name
    rho := dgp.covar_corr
    common_coef_val := dgp.common_coef_val
    power := listMean r.test_decisions }

/-- `SimulationOrchestratorParallel._run_single_scenario`: build the DGP
and test from the scenario, run a fresh `SimulationRunner`, return
`runner.summarize_results()`. -/
def runSingleScenarioPar {Data τ : Type} (interp : Interp2 Data τ)
    (s : SimulationScenario2) : Summary2 :=
  let dgp := interp.mkDGP s.dgp s.dgp_params
  let tst := interp.mkTest s.test s.test_params
  let runner := simulate2 dgp tst s.n_simulations s.sample_size (some s.first_seed)
  summarizeResults2 dgp tst runner

/-- `SimulationOrchestratorSequential._run_single_scenario`: same body as
the parallel variant. -/
def runSingleScenarioSeq {Data τ : Type} (interp : Interp2 Data τ)
    (s : SimulationScenario2) : Summary2 :=
  let dgp := interp.mkDGP s.dgp s.dgp_params
  let tst := interp.mkTest s.test s.test_params
  let runner := simulate2 dgp tst s.n_simulations s.sample_size (some s.first_seed)
  summarizeResults2 dgp tst runner

/-- `SimulationOrchestratorSequential.run_all`: append
`_run_single_scenario(scenario)` to `summary_results` for each scenario in
list order. -/
def runAllSequential2 {Data τ : Type} (interp : Interp2 Data τ)
    (scens : List SimulationScenario2) : List Summary2 :=
  scens.foldl (fun acc s => acc ++ [runSingleScenarioSeq interp s]) []

/-- `SimulationOrchestratorParallel.run_all`: every scenario is submitted
to the thread pool; results are appended in the order `as_completed` yields
the futures, modelled by the `completionOrder` list (a permutation of the
submitted scenarios when no task is lost). -/
def runAllParallel2 {Data τ : Type} (interp : Interp2 Data τ)
    (completionOrder : List SimulationScenario2) : List Summary2 :=
  completionOrder.foldl (fun acc s => acc ++ [runSingleScenarioPar interp s]) []

/-! ### Exception propagation in the runner loop

Python lets exceptions from `dgp.sample` / `estimator.fit` escape the
`simulate` loop; we model the fallible calls with `Except` and the loop as
a recursion that stops at the first raised exception. -/

/-- A DGP whose `sample` may raise (exception type `ε`). -/
structure DGP1E (Data ε : Type) where
  sample : Nat → Option Int → Except ε Data
  beta1 : ℚ

/-- An estimator whose `fit` may raise. -/
structure Estimator1E (Data σ ε : Type) where
  init : σ
  fit : σ → Data → Except ε σ
  beta1_hat : σ → ℚ

/-- Observable outcome of (a prefix of) the fallible `simulate` loop: the
estimator state or the escaped exception, the errors stored so far, the
seed argument of every `dgp.sample` call actually made, and the number of
`fit` calls actually made. -/
structure RunAccE (σ ε : Type) where
  state : Except ε σ
  errors : List ℚ
  sampleSeeds : List (Option Int)
  fitCalls : Nat
deriving Repr

/-- `SimulationRunner.simulate` with fallible `sample` and `fit`: the loop
body of replication `k` runs only if replications `0..k-1` all completed;
a raised exception aborts the loop and escapes unchanged (no retry, no
handler in the source). -/
def simulate1E {Data σ ε : Type} (dgp : DGP1E Data ε) (est : Estimator1E Data σ ε)
    (n_sim n_obs : Nat) (first_seed : Option Int) : RunAccE σ ε :=
  match n_sim with
  | 0 => { state := .ok est.init, errors := [], sampleSeeds := [], fitCalls := 0 }
  | k + 1 =>
      let r := simulate1E dgp est k n_obs first_seed
      match r.state with
      | .error e => { r with state := .error e }
      | .ok s =>
          match dgp.sample n_obs (seedArg first_seed k) with
          | .error e =>
              { r with
                state := .error e
                sampleSeeds := r.sampleSeeds ++ [seedArg first_seed k] }
          | .ok d =>
              match est.fit s d with
              | .error e =>
                  { r with
                    state := .error e
                    sampleSeeds := r.sampleSeeds ++ [seedArg first_seed k]
                    fitCalls := r.fitCalls + 1 }
              | .ok s2 =>
                  { state := .ok s2
                    errors := r.errors ++ [est.beta1_hat s2 - dgp.beta1]
                    sampleSeeds := r.sampleSeeds ++ [seedArg first_seed k]
                    fitCalls := r.fitCalls + 1 }

/-- `SimulationOrchestratorParallel.run_all` with fallible tasks: `task`
models `_run_single_scenario` (which may raise inside a worker thread), and
the loop over `as_completed` appends `future.result()`, which re-raises the
task's exception in `run_all`. -/
def runAllParallel2E {ε : Type} (task : SimulationScenario2 → Except ε Summary2)
    (completionOrder : List SimulationScenario2) : Except ε (List Summary2) :=
  completionOrder.foldlM (fun acc s => (task s).map (fun r => acc ++ [r])) []

/-! ### The Wald and Bonferroni test decisions

`2-joint-vs-multiple-tests/tests/joint.py` and `tests/multiple.py`.  The
statsmodels OLS fit is an oracle producing the Wald p-value and the
per-parameter t-test p-values (intercept first). -/

/-- What the statsmodels fit of `OLS(y, x)` provides to the two tests: the
p-value of the Wald test of the non-intercept restriction matrix, and the
`pvalues` series of the individual t-tests, intercept first. -/
structure OLSFitResult where
  waldPValue : ℚ
  tPValues : List ℚ

/-- `WaldWithOLS.test` decision: `wald_test.pvalue <= 0.05`. -/
def WaldWithOLS.testDecision (fitRes : OLSFitResult) : Bool :=
  decide (fitRes.waldPValue ≤ 1/20)

/-- `WaldWithOLS` as a runner test component: `test` fits OLS (oracle
`olsFit`) and stores the Wald decision; `name = "Wald"`. -/
def mkWaldWithOLS {Data : Type} (olsFit : Data → OLSFitResult) :
    StatTest Data Bool :=
  { init := false
    test := fun _ d => WaldWithOLS.testDecision (olsFit d)
    decision := fun t => t
    name := "Wald" }

/-- `BonferronigMultipleTWithOLS.test` decision:
`p_vals_t = lin_reg_fit.pvalues.iloc[1:]` (drop the intercept), apply
`multipletests(p_vals_t, method="bonferroni")` (oracle returning its
boolean reject array), and decide `reject.sum() > 0`. -/
def BonferronigMultipleTWithOLS.testDecision
    (multipletestsReject : List ℚ → List Bool) (fitRes : OLSFitResult) : Bool :=
  let p_vals_t := fitRes.tPValues.drop 1
  let reject := multipletestsReject p_vals_t
  decide (reject.countP (fun b => b) > 0)

/-- `BonferronigMultipleTWithOLS` as a runner test component;
`name = "Bonferroni t"`. -/
def mkBonferronigMultipleTWithOLS {Data : Type}
    (olsFit : Data → OLSFitResult) (multipletestsReject : List ℚ → List Bool) :
    StatTest Data Bool :=
  { init := false
    test := fun _ d => BonferronigMultipleTWithOLS.testDecision multipletestsReject (olsFit d)
    decision := fun t => t
    name := "Bonferroni t" }

/-! ### The `sample` signatures of the DGP classes

One entry per DGP class defined in the repository, with the parameter list
of its `sample` method (excluding `self`) and the number of trailing
parameters that carry defaults, transcribed from the class sources. -/

/-- A Python method signature: parameter names in order (without `self`)
and how many trailing parameters have default values. -/
structure PyMethodSig where
  params : List String
  numDefaults : Nat
deriving DecidableEq, Repr

/-- The `sample` signatures of every DGP class in the repository:
`StaticNormalDGP` and `DynamicNormalDGP` (example 1),
`BivariateLinearModel` (example 2), `SKImbalancedTwoClassesDGP`
(example 5, whose `sample` takes only `seed`; the sample sizes are fixed
constructor attributes `n_train_samples` / `n_test_samples`). -/
def repoDGPSampleSigs : List (String × PyMethodSig) :=
  [("StaticNormalDGP", { params := ["n_obs", "seed"], numDefaults := 1 }),
   ("DynamicNormalDGP", { params := ["n_obs", "seed"], numDefaults := 1 }),
   ("BivariateLinearModel", { params := ["n_obs", "seed"], numDefaults := 1 }),
   ("SKImbalancedTwoClassesDGP", { params := ["seed"], numDefaults := 1 })]

/-- A method can be invoked as `sample(n, seed)` — a sample-size argument
followed by a seed argument — precisely when it declares two parameters the
second of which is the seed. -/
def acceptsSizeAndSeed (sig : PyMethodSig) : Bool :=
  decide (sig.params.length = 2) && decide (sig.params.getD 1 "" = "seed")

/-! ### `asymptotic_ci_variance`

`3-confidence-intervals-close-to-boundary/sim_infrastructure/core.py`.
`np.sqrt` and `scipy.stats.norm.ppf` are library oracles. -/

/-- `mle_variance(data)`: `np.var(data, ddof=0)`, the mean squared
deviation from the sample mean. -/
def mle_variance (data : List ℚ) : ℚ :=
  let m := data.sum / data.length
  (data.map (fun x => (x - m) ^ 2)).sum / data.length

/-- `asymptotic_ci_variance(data, alpha)` (`core.py`, lines 34-59):
`variance_est = mle_variance(data)`,
`variance_std_error = np.sqrt(2 * variance_est**2 / n_obs)`,
`z_crit = norm.ppf(1 - alpha / 2)`,
`lower = max(0, variance_est - z_crit * variance_std_error)`,
`upper = variance_est + z_crit * variance_std_error`. -/
def asymptotic_ci_variance (sqrtFn : ℚ → ℚ) (normPpf : ℚ → ℚ)
    (data : List ℚ) (alpha : ℚ) : ℚ × ℚ :=
  let n_obs := data.length
  let variance_est := mle_variance data
  let variance_std_error := sqrtFn (2 * variance_est ^ 2 / n_obs)
  let z_crit := normPpf (1 - alpha / 2)
  let lower := max 0 (variance_est - z_crit * variance_std_error)
  let upper := variance_est + z_crit * variance_std_error
  (lower, upper)

/-! ### Seed extraction from a run trace, and concrete instantiations used
to exercise theorems on closed inputs. -/

/-- The seed argument of an event when it is a `sample` call. -/
def eventSeed {Data : Type} : RunEvent Data → Option (Option Int)
  | .sampleCall _ seed => some seed
  | .fitCall _ => none

/-- The seed arguments of the `sample` calls of a trace, in order. -/
def sampleSeedsOf {Data : Type} (events : List (RunEvent Data)) : List (Option Int) :=
  events.filterMap eventSeed

/-- A degenerate DGP for exercising the minimum-design runner. -/
def unitDGP1 : DGP1 Unit := { sample := fun _ _ => (), beta1 := 0 }

/-- A degenerate estimator for exercising the minimum-design runner. -/
def unitEstimator1 : Estimator1 Unit Unit :=
  { init := (), fit := fun _ _ => (), beta1_hat := fun _ => 0 }

/-- A degenerate constructor interpretation for the minimum-design
orchestrator. -/
def unitInterp1 : Interp1 Unit Unit :=
  { mkDGP := fun _ _ => unitDGP1, mkEstimator := fun _ _ => unitEstimator1 }

/-- A degenerate DGP for exercising the test runner. -/
def unitDGP2 : DGP2 Unit := { sample := fun _ _ => (), covar_corr := 0, common_coef_val := 0 }

/-- A degenerate test for exercising the test runner. -/
def unitStatTest : StatTest Unit Bool :=
  { init := false, test := fun _ _ => true, decision := fun t => t, name := "t" }

/-- A degenerate constructor interpretation for the example-2
orchestrators. -/
def unitInterp2 : Interp2 Unit Bool :=
  { mkDGP := fun _ _ => unitDGP2, mkTest := fun _ _ => unitStatTest }

/-- A fallible DGP whose `sample` raises `"boom"` exactly at seed 8. -/
def failDGP1E : DGP1E Unit String :=
  { sample := fun _ seed => if seed = some 8 then .error "boom" else .ok ()
    beta1 := 0 }

/-- A fallible estimator whose `fit` never raises. -/
def okEstimator1E : Estimator1E Unit Unit String :=
  { init := (), fit := fun _ _ => .ok (), beta1_hat := fun _ => 0 }

/-- A tiny scenario for exercising the orchestrators on closed inputs. -/
def tinyScenario2 : SimulationScenario2 :=
  { name := ""
    dgp := .bivariateLinearModel
    dgp_params := []
    test := .waldWithOLS
    test_params := []
    sample_size := 1
    n_simulations := 1
    first_seed := 1 }

/-- A second tiny scenario, distinguishable from `tinyScenario2`. -/
def tinyScenario2' : SimulationScenario2 :=
  { tinyScenario2 with test := .bonferronigMultipleTWithOLS, n_simulations := 2 }

/-- The first element of the minimum-design `scenarios` grid, written out. -/
def firstScenario1 : SimulationScenario1 :=
  { name := "staticnormaldgp_static_simpleols_n50"
    dgp := .staticNormalDGP
    dgp_params := [("beta0", 0), ("beta1", 1)]
    estimator := .simpleOLS
    estimator_params := []
    sample_size := 50 }

/-- A tiny scenario list for the minimum-design orchestrator. -/
def tinyScenario1 : SimulationScenario1 :=
  { name := "a"
    dgp := .staticNormalDGP
    dgp_params := []
    estimator := .simpleOLS
    estimator_params := []
    sample_size := 1
    n_simulations := 2
    first_seed := 1 }

end SimCourse

namespace SimCourse

/-! ### Characterisation of the runner loops -/

theorem simulate1_eq {Data σ : Type} (dgp : DGP1 Data) (est : Estimator1 Data σ)
    (n_sim n_obs : Nat) (fs : Option Int) :
    simulate1 dgp est n_sim n_obs fs =
      { est := estState1 dgp est n_obs fs n_sim
        errors := (List.range n_sim).map
          (fun i => est.beta1_hat (estState1 dgp est n_obs fs (i + 1)) - dgp.beta1)
        events := (List.range n_sim).flatMap (replicationEvents dgp.sample n_obs fs) } := by
  induction n_sim with
  | zero => rfl
  | succ n ih =>
      unfold simulate1 at ih ⊢
      rw [List.range_succ, List.foldl_append, ih]
      simp [estState1, replicationEvents]

theorem sampleSeedsOf_flatMap_replication {Data : Type} (g : Nat → Option Int → Data)
    (n_obs : Nat) (fs : Option Int) (n : Nat) :
    sampleSeedsOf ((List.range n).flatMap (replicationEvents g n_obs fs)) =
      (List.range n).map (seedArg fs) := by
  induction n with
  | zero => rfl
  | succ n ih =>
      rw [List.range_succ]
      simp only [List.flatMap_append, List.map_append, sampleSeedsOf,
        List.filterMap_append] at ih ⊢
      rw [ih]
      simp [replicationEvents, eventSeed]

theorem foldl_append_singleton {α β : Type} (f : α → β) (l : List α) (acc : List β) :
    l.foldl (fun a s => a ++ [f s]) acc = acc ++ l.map f := by
  induction l generalizing acc with
  | nil => simp
  | cons x xs ih => simp [List.foldl_cons, ih]

theorem simulate2_eq {Data τ : Type} (dgp : DGP2 Data) (tst : StatTest Data τ)
    (n_sim n_obs : Nat) (fs : Option Int) :
    simulate2 dgp tst n_sim n_obs fs =
      { test := testState2 dgp tst n_obs fs n_sim
        test_decisions := (List.range n_sim).map
          (fun i => boolToRat (tst.decision (testState2 dgp tst n_obs fs (i + 1))))
        events := (List.range n_sim).flatMap (replicationEvents dgp.sample n_obs fs) } := by
  induction n_sim with
  | zero => rfl
  | succ n ih =>
      unfold simulate2 at ih ⊢
      rw [List.range_succ, List.foldl_append, ih]
      simp [testState2, replicationEvents]

/-! ### Python-dict lemmas -/

theorem dictGet_assign_self {β : Type} (d : List (String × β)) (k : String) (v : β) :
    dictGet (dictAssign d k v) k = some v := by
  induction d with
  | nil => simp [dictAssign, dictGet]
  | cons p rest ih =>
      by_cases h : p.1 = k
      · simp [dictAssign, dictGet, h]
      · simp [dictAssign, dictGet, h, ih]

theorem dictGet_assign_ne {β : Type} (d : List (String × β)) (k k' : String) (v : β)
    (h : k ≠ k') : dictGet (dictAssign d k v) k' = dictGet d k' := by
  induction d with
  | nil => simp [dictAssign, dictGet, h]
  | cons p rest ih =>
      by_cases hp : p.1 = k
      · simp [dictAssign, dictGet, hp, h, hp ▸ h]
      · simp [dictAssign, dictGet, hp, ih]

theorem dictAssign_keys {β : Type} (d : List (String × β)) (k : String) (v : β) :
    (dictAssign d k v).map Prod.fst =
      if k ∈ d.map Prod.fst then d.map Prod.fst else d.map Prod.fst ++ [k] := by
  induction d with
  | nil => simp [dictAssign]
  | cons p rest ih =>
      by_cases h : p.1 = k
      · simp [dictAssign, h]
      · by_cases hk : k ∈ rest.map Prod.fst
        · simp [dictAssign, h, ih, hk, Ne.symm h]
        · simp [dictAssign, h, ih, hk, Ne.symm h]

/-! ### Lemmas about the dict-based orchestrator -/

theorem runAll1_append {Data σ : Type} (interp : Interp1 Data σ)
    (l : List SimulationScenario1) (s : SimulationScenario1) :
    runAll1 interp (l ++ [s]) =
      dictAssign (runAll1 interp l) s.name (runScenario1 interp s) := by
  simp [runAll1, List.foldl_append]

theorem runAll1_keys_mem {Data σ : Type} (interp : Interp1 Data σ)
    (l : List SimulationScenario1) (name : String) :
    name ∈ (runAll1 interp l).map Prod.fst ↔
      name ∈ l.map SimulationScenario1.name := by
  induction l using List.reverseRecOn generalizing name with
  | nil => simp [runAll1]
  | append_singleton l s ih =>
      rw [runAll1_append, dictAssign_keys]
      by_cases h : s.name ∈ (runAll1 interp l).map Prod.fst
      · have hs : s.name ∈ l.map SimulationScenario1.name := (ih s.name).mp h
        simp only [if_pos h, List.map_append, List.map_cons, List.map_nil]
        constructor
        · intro hmem
          exact List.mem_append.mpr (Or.inl ((ih name).mp hmem))
        · intro hmem
          rcases List.mem_append.mp hmem with hmem | hmem
          · exact (ih name).mpr hmem
          · simp only [List.mem_singleton] at hmem
            exact (ih name).mpr (hmem ▸ hs)
      · rw [if_neg h]
        simp only [List.map_append, List.map_cons, List.map_nil, List.mem_append,
          List.mem_singleton, ih]

theorem runAll1_keys_count {Data σ : Type} (interp : Interp1 Data σ)
    (l : List SimulationScenario1) (name : String) :
    ((runAll1 interp l).map Prod.fst).count name =
      if name ∈ l.map SimulationScenario1.name then 1 else 0 := by
  induction l using List.reverseRecOn generalizing name with
  | nil => simp [runAll1]
  | append_singleton l s ih =>
      rw [runAll1_append, dictAssign_keys]
      by_cases h : s.name ∈ (runAll1 interp l).map Prod.fst
      · have hs : s.name ∈ l.map SimulationScenario1.name :=
          (runAll1_keys_mem interp l s.name).mp h
        rw [if_pos h, ih name]
        by_cases hn : name ∈ l.map SimulationScenario1.name
        · simp [hn]
        · have : name ≠ s.name := fun he => hn (he ▸ hs)
          simp [hn, this]
      · have hs : s.name ∉ l.map SimulationScenario1.name := fun hc =>
          h ((runAll1_keys_mem interp l s.name).mpr hc)
        rw [if_neg h, List.count_append, ih name]
        by_cases hn : name ∈ l.map SimulationScenario1.name
        · have : name ≠ s.name := fun he => hs (he ▸ hn)
          simp [hn, this, List.count_singleton]
        · by_cases he : name = s.name
          · simp only [hn, if_false, List.map_append, List.map_cons, List.map_nil,
              List.mem_append, List.mem_singleton, he, or_true, if_true]
            rw [List.count_singleton]
            simp
            intro x hx hxe
            exact hs (hxe ▸ List.mem_map_of_mem SimulationScenario1.name hx)
          · simp [hn, he, List.count_singleton]

theorem runAll1_dictGet {Data σ : Type} (interp : Interp1 Data σ)
    (l : List SimulationScenario1) (name : String) :
    dictGet (runAll1 interp l) name =
      ((l.filter (fun s => s.name = name)).getLast?).map (runScenario1 interp) := by
  induction l using List.reverseRecOn generalizing name with
  | nil => rfl
  | append_singleton l s ih =>
      rw [runAll1_append, List.filter_append]
      by_cases h : s.name = name
      · subst h
        rw [dictGet_assign_self]
        have hps : [s].filter (fun x => x.name = s.name) = [s] := by simp
        rw [hps, List.getLast?_concat]
        rfl
      · rw [dictGet_assign_ne _ _ _ _ h, ih name]
        have hps : [s].filter (fun x => x.name = name) = [] := by simp [h]
        rw [hps, List.append_nil]

theorem filter_name_eq_of_nodup (l : List SimulationScenario1)
    (hnd : (l.map SimulationScenario1.name).Nodup) (s : SimulationScenario1)
    (hs : s ∈ l) : l.filter (fun x => x.name = s.name) = [s] := by
  induction l with
  | nil => cases hs
  | cons x rest ih =>
      rw [List.map_cons, List.nodup_cons] at hnd
      rcases List.mem_cons.mp hs with rfl | hmem
      · have hrest : rest.filter (fun x => x.name = s.name) = [] := by
          rw [List.filter_eq_nil_iff]
          intro y hy
          simp only [decide_eq_true_eq]
          exact fun he => hnd.1 (he ▸ List.mem_map_of_mem SimulationScenario1.name hy)
        simp [List.filter_cons, hrest]
      · have hx : ¬(x.name = s.name) := fun he =>
          hnd.1 (he ▸ List.mem_map_of_mem SimulationScenario1.name hmem)
        rw [List.filter_cons_of_neg (by simpa using hx)]
        exact ih hnd.2 hmem

/-! ### Lemmas about `itertools.product`-shaped lists -/

theorem flatMap_map_eq_product {α β δ : Type} (as : List α) (bs : List β)
    (mk : α → β → δ) :
    as.flatMap (fun a => bs.map (mk a)) =
      (as ×ˢ bs).map (fun p => mk p.1 p.2) := by
  induction as with
  | nil => rfl
  | cons a as ih =>
      simp only [List.flatMap_cons, SProd.sprod, List.product, ih]
      simp [List.map_map, Function.comp]

theorem flatMap_flatMap_map_eq_product {α β γ δ : Type} (as : List α) (bs : List β)
    (cs : List γ) (mk : α → β → γ → δ) :
    as.flatMap (fun a => bs.flatMap (fun b => cs.map (mk a b))) =
      ((as ×ˢ bs) ×ˢ cs).map (fun p => mk p.1.1 p.1.2 p.2) := by
  have h1 : as.flatMap (fun a => bs.flatMap (fun b => cs.map (mk a b))) =
      (as.flatMap (fun a => bs.map (fun b => (a, b)))).flatMap
        (fun p => cs.map (mk p.1 p.2)) := by
    induction as with
    | nil => rfl
    | cons a as ih => simp [List.flatMap_cons, List.flatMap_map, ih]
  rw [h1]
  have h2 : as.flatMap (fun a => bs.map (fun b => (a, b))) = as ×ˢ bs := rfl
  rw [h2, flatMap_map_eq_product]

theorem length_flatMap_const {α β : Type} (l : List α) (f : α → List β) (c : Nat)
    (h : ∀ a ∈ l, (f a).length = c) : (l.flatMap f).length = l.length * c := by
  induction l with
  | nil => simp
  | cons x xs ih =>
      simp only [List.flatMap_cons, List.length_append, List.length_cons]
      rw [h x (List.mem_cons_self x xs), ih (fun a ha => h a (List.mem_cons_of_mem x ha))]
      ring

/-! ### Lemmas about the fallible runner -/

theorem RunAccE_eta_error {σ ε : Type} (r : RunAccE σ ε) (e : ε)
    (h : r.state = Except.error e) : { r with state := Except.error e } = r := by
  cases r
  simp_all

theorem simulate1E_ok_inv {Data σ ε : Type} (dgp : DGP1E Data ε)
    (est : Estimator1E Data σ ε) (n_obs : Nat) (fs : Option Int) (k : Nat) (s : σ)
    (h : (simulate1E dgp est k n_obs fs).state = Except.ok s) :
    (simulate1E dgp est k n_obs fs).sampleSeeds = (List.range k).map (seedArg fs)
    ∧ (simulate1E dgp est k n_obs fs).fitCalls = k
    ∧ (simulate1E dgp est k n_obs fs).errors.length = k := by
  induction k generalizing s with
  | zero => simp [simulate1E]
  | succ k ih =>
      rw [simulate1E] at h ⊢
      cases hr : (simulate1E dgp est k n_obs fs).state with
      | error e => simp [hr] at h
      | ok s' =>
          obtain ⟨hseeds, hfits, herrs⟩ := ih s' hr
          cases hsample : dgp.sample n_obs (seedArg fs k) with
          | error e => simp [hr, hsample] at h
          | ok d =>
              cases hfit : est.fit s' d with
              | error e => simp [hr, hsample, hfit] at h
              | ok s2 =>
                  simp [hr, hsample, hfit, hseeds, hfits, herrs, List.range_succ]

theorem simulate1E_error_absorb {Data σ ε : Type} (dgp : DGP1E Data ε)
    (est : Estimator1E Data σ ε) (n_obs : Nat) (fs : Option Int) (k : Nat) (e : ε)
    (h : (simulate1E dgp est k n_obs fs).state = Except.error e) (m : Nat)
    (hkm : k ≤ m) :
    simulate1E dgp est m n_obs fs = simulate1E dgp est k n_obs fs := by
  induction m with
  | zero =>
      have hk0 : k = 0 := Nat.le_zero.mp hkm
      rw [hk0]
  | succ m ih =>
      rcases Nat.eq_or_lt_of_le hkm with heq | hlt
      · rw [heq]
      · have hk : k ≤ m := Nat.lt_succ_iff.mp hlt
        have hm := ih hk
        rw [simulate1E, hm, h]
        exact RunAccE_eta_error _ e (hm ▸ h)

theorem runAllParallel2E_foldlM_aux {ε : Type}
    (task : SimulationScenario2 → Except ε Summary2)
    (done : List SimulationScenario2) (s₂ : SimulationScenario2)
    (rest : List SimulationScenario2) (e : ε)
    (hdone : ∀ x ∈ done, ∃ r, task x = Except.ok r)
    (hs : task s₂ = Except.error e) (acc : List Summary2) :
    (done ++ s₂ :: rest).foldlM
      (fun acc s => (task s).map (fun r => acc ++ [r])) acc = Except.error e := by
  induction done generalizing acc with
  | nil =>
      simp only [List.nil_append, List.foldlM_cons, hs, Except.map]
      rfl
  | cons x done' ih =>
      obtain ⟨r, hr⟩ := hdone x (List.mem_cons_self x done')
      simp only [List.cons_append, List.foldlM_cons, hr, Except.map]
      exact ih (fun y hy => hdone y (List.mem_cons_of_mem x hy)) (acc ++ [r])

/-! ### Claim C1 -/

/-- C1: for every `n_sim`, `n_obs` and `first_seed`, `simulate` performs
exactly `n_sim` replications, each one `dgp.sample(n_obs, ...)` call
followed by one `fit` (resp. `test`) call on the sampled data; afterwards
the stored array has length `n_sim`, with `errors[i]` equal to the
estimator's `beta1_hat` after the `i`-th fit minus `dgp.beta1` (and, in the
test runner, `test_decisions[i]` equal to the test's decision after the
`i`-th test). -/
theorem claim_C1 {Data σ τ : Type} (dgp : DGP1 Data) (est : Estimator1 Data σ)
    (dgp2 : DGP2 Data) (tst : StatTest Data τ) (n_sim n_obs : Nat) (fs : Option Int)
    (i : Nat) (hi : i < n_sim) :
    (simulate1 dgp est n_sim n_obs fs).errors.length = n_sim
    ∧ (simulate1 dgp est n_sim n_obs fs).events =
        (List.range n_sim).flatMap (replicationEvents dgp.sample n_obs fs)
    ∧ (simulate1 dgp est n_sim n_obs fs).errors[i]? =
        some (est.beta1_hat (estState1 dgp est n_obs fs (i + 1)) - dgp.beta1)
    ∧ (simulate2 dgp2 tst n_sim n_obs fs).test_decisions.length = n_sim
    ∧ (simulate2 dgp2 tst n_sim n_obs fs).events =
        (List.range n_sim).flatMap (replicationEvents dgp2.sample n_obs fs)
    ∧ (simulate2 dgp2 tst n_sim n_obs fs).test_decisions[i]? =
        some (boolToRat (tst.decision (testState2 dgp2 tst n_obs fs (i + 1)))) := by
  rw [simulate1_eq, simulate2_eq]
  refine ⟨by simp, rfl, ?_, by simp, rfl, ?_⟩
  · simp [List.getElem?_map, List.getElem?_range, hi]
  · simp [List.getElem?_map, List.getElem?_range, hi]

/-- Witness for C1 at a concrete two-replication run. -/
theorem claim_C1_witness :
    1 < 2 ∧
      ((simulate1 unitDGP1 unitEstimator1 2 3 (some 5)).errors.length = 2
      ∧ (simulate1 unitDGP1 unitEstimator1 2 3 (some 5)).events =
          (List.range 2).flatMap (replicationEvents unitDGP1.sample 3 (some 5))
      ∧ (simulate1 unitDGP1 unitEstimator1 2 3 (some 5)).errors[1]? =
          some (unitEstimator1.beta1_hat
            (estState1 unitDGP1 unitEstimator1 3 (some 5) 2) - unitDGP1.beta1)
      ∧ (simulate2 unitDGP2 unitStatTest 2 3 (some 5)).test_decisions.length = 2
      ∧ (simulate2 unitDGP2 unitStatTest 2 3 (some 5)).events =
          (List.range 2).flatMap (replicationEvents unitDGP2.sample 3 (some 5))
      ∧ (simulate2 unitDGP2 unitStatTest 2 3 (some 5)).test_decisions[1]? =
          some (boolToRat (unitStatTest.decision
            (testState2 unitDGP2 unitStatTest 3 (some 5) 2)))) :=
  ⟨by decide,
   claim_C1 unitDGP1 unitEstimator1 unitDGP2 unitStatTest 2 3 (some 5) 1 (by decide)⟩

/-! ### Claim C8 -/

/-- C8: in `simulate`, replication `i` calls `dgp.sample` with seed
`first_seed + i` when `first_seed` is a nonzero integer, and with seed
`None` when `first_seed` is `None` or `0`; in particular `first_seed = 0`
yields unseeded draws in every replication rather than seeds `0, 1, 2, ...`. -/
theorem claim_C8 {Data σ τ : Type} (dgp : DGP1 Data) (est : Estimator1 Data σ)
    (dgp2 : DGP2 Data) (tst : StatTest Data τ) (n_sim n_obs : Nat) (fs : Option Int)
    (i : Nat) (hi : i < n_sim) :
    (sampleSeedsOf (simulate1 dgp est n_sim n_obs fs).events)[i]? =
        some (seedArg fs i)
    ∧ (sampleSeedsOf (simulate2 dgp2 tst n_sim n_obs fs).events)[i]? =
        some (seedArg fs i)
    ∧ (∀ s : Int, fs = some s → s ≠ 0 → seedArg fs i = some (s + i))
    ∧ (fs = none → seedArg fs i = none)
    ∧ (fs = some 0 → seedArg fs i = none) := by
  refine ⟨?_, ?_, ?_, ?_, ?_⟩
  · have h2 : (simulate1 dgp est n_sim n_obs fs).events =
        (List.range n_sim).flatMap (replicationEvents dgp.sample n_obs fs) := by
      rw [simulate1_eq]
    rw [h2, sampleSeedsOf_flatMap_replication]
    simp [List.getElem?_map, List.getElem?_range, hi]
  · have h2 : (simulate2 dgp2 tst n_sim n_obs fs).events =
        (List.range n_sim).flatMap (replicationEvents dgp2.sample n_obs fs) := by
      rw [simulate2_eq]
    rw [h2, sampleSeedsOf_flatMap_replication]
    simp [List.getElem?_map, List.getElem?_range, hi]
  · intro s hfs hs0
    subst hfs
    simp [seedArg, hs0]
  · intro h
    subst h
    rfl
  · intro h
    subst h
    simp [seedArg]

/-- Witness for C8 with `first_seed = 0`: the second replication still
samples with seed `None`. -/
theorem claim_C8_witness :
    (1 < 3 ∧
      (sampleSeedsOf (simulate1 unitDGP1 unitEstimator1 3 4 (some 0)).events)[1]? =
        some (seedArg (some 0) 1))
    ∧ seedArg (some 0) 1 = none :=
  ⟨⟨by decide,
    (claim_C8 unitDGP1 unitEstimator1 unitDGP2 unitStatTest 3 4 (some 0) 1
      (by decide)).1⟩,
   (claim_C8 unitDGP1 unitEstimator1 unitDGP2 unitStatTest 3 4 (some 0) 1
      (by decide)).2.2.2.2 rfl⟩

/-! ### Claim C2 -/

/-- C2: the module-level `scenarios` list of each example is exactly the
Cartesian product of its component lists in `itertools.product` order —
`4 * 3 * 2 = 24` scenarios in the minimum-design example and
`231 * 51 * 2 * 1 = 23562` in the joint-vs-multiple-tests example — and the
orchestrators' `run_all` runs a `SimulationRunner` for every element of the
list. -/
theorem claim_C2 {Data σ τ : Type} (interp1 : Interp1 Data σ) (interp2 : Interp2 Data τ)
    (s : SimulationScenario1) (hs : s ∈ scenarios1) :
    scenarios1.length = 24
    ∧ dgps1.length * estimators1.length * sample_sizes1.length = 24
    ∧ scenarios1 = ((dgps1 ×ˢ estimators1) ×ˢ sample_sizes1).map (fun p =>
        { name := scenarioName1 p.1.1.1 p.1.1.2.2 p.1.2.1 p.2
          dgp := p.1.1.1
          dgp_params := p.1.1.2.1
          estimator := p.1.2.1
          estimator_params := p.1.2.2
          sample_size := p.2 })
    ∧ scenarios2.length = 23562
    ∧ dgp_list2.length = 231 * 51
    ∧ common_coef_vals.length = 231
    ∧ covar_corr_vals.length = 51
    ∧ tests2.length = 2
    ∧ sample_sizes2.length = 1
    ∧ scenarios2 = ((dgp_list2 ×ˢ tests2) ×ˢ sample_sizes2).map (fun p =>
        { name := ""
          dgp := p.1.1.1
          dgp_params := p.1.1.2
          test := p.1.2.1
          test_params := p.1.2.2
          sample_size := p.2 })
    ∧ dictGet (runAll1 interp1 scenarios1) s.name = some (runScenario1 interp1 s)
    ∧ (∀ scens : List SimulationScenario2,
        runAllSequential2 interp2 scens = scens.map (runSingleScenarioSeq interp2)) := by
  have hlin : ∀ (a b : ℚ) (n : Nat), (linspace a b n).length = n := by
    intro a b n
    rw [linspace, List.length_map, List.length_range]
  have hcommon : common_coef_vals.length = 231 := hlin _ _ _
  have hcovar : covar_corr_vals.length = 51 := hlin _ _ _
  have hdgp : dgp_list2.length = 231 * 51 := by
    rw [show dgp_list2.length =
        (common_coef_vals.flatMap (fun c => covar_corr_vals.map (fun r =>
          ((DGPClass2.bivariateLinearModel : DGPClass2),
            [("common_coef_val", c), ("covar_corr", r)])))).length from rfl]
    rw [length_flatMap_const _ _ 51 (fun a _ => by simp [hcovar]), hcommon]
  have hs2len : scenarios2.length = 23562 := by
    rw [show scenarios2.length =
        (dgp_list2.flatMap (fun d => tests2.flatMap (fun t => sample_sizes2.map
          (fun size => ({ name := ""
                          dgp := d.1
                          dgp_params := d.2
                          test := t.1
                          test_params := t.2
                          sample_size := size } : SimulationScenario2))))).length from rfl]
    rw [length_flatMap_const _ _ 2 (fun a _ => by simp [tests2, sample_sizes2]), hdgp]
  have hnodup : (scenarios1.map SimulationScenario1.name).Nodup := by decide
  refine ⟨by decide, by decide, ?_, hs2len, hdgp, hcommon, hcovar, rfl, rfl, ?_, ?_, ?_⟩
  · exact flatMap_flatMap_map_eq_product dgps1 estimators1 sample_sizes1 _
  · exact flatMap_flatMap_map_eq_product dgp_list2 tests2 sample_sizes2 _
  · rw [runAll1_dictGet, filter_name_eq_of_nodup scenarios1 hnodup s hs]
    rfl
  · intro scens
    simp [runAllSequential2, foldl_append_singleton]

/-- Witness for C2: the first grid element's result is stored by `run_all`
under its name. -/
theorem claim_C2_witness :
    firstScenario1 ∈ scenarios1
    ∧ dictGet (runAll1 unitInterp1 scenarios1) firstScenario1.name =
        some (runScenario1 unitInterp1 firstScenario1) :=
  ⟨by decide,
   (claim_C2 unitInterp1 unitInterp2 firstScenario1
      (by decide)).2.2.2.2.2.2.2.2.2.2.1⟩

/-! ### Claim C9 -/

/-- C9: the dict-based `SimulationOrchestrator.run_all` stores each
scenario's result under `scenario.name`, so `summary_results` has exactly
one entry per distinct scenario name, and when two scenarios share a name
only the result of the later one in list order remains. -/
theorem claim_C9 {Data σ : Type} (interp : Interp1 Data σ)
    (l : List SimulationScenario1) (name : String) :
    ((runAll1 interp l).map Prod.fst).count name =
      (if name ∈ l.map SimulationScenario1.name then 1 else 0)
    ∧ dictGet (runAll1 interp l) name =
        ((l.filter (fun s => s.name = name)).getLast?).map (runScenario1 interp) :=
  ⟨runAll1_keys_count interp l name, runAll1_dictGet interp l name⟩

/-! ### Claim C4 -/

/-- C4: the per-scenario summary statistic is the arithmetic mean of the
per-replication statistics: in the minimum-design example
`summary_results[scenario.name]` is the mean over replications of
`beta1_hat - beta1`, and in the joint-vs-multiple-tests example the
`"power"` entry of `summarize_results` is the mean of the stored test
decisions. -/
theorem claim_C4 {Data σ τ : Type} (interp : Interp1 Data σ)
    (l : List SimulationScenario1) (hnd : (l.map SimulationScenario1.name).Nodup)
    (s : SimulationScenario1) (hs : s ∈ l)
    (dgp2 : DGP2 Data) (tst : StatTest Data τ) (n_sim n_obs : Nat) (fs : Option Int) :
    dictGet (runAll1 interp l) s.name =
      some (listMean ((List.range s.n_simulations).map (fun i =>
        (interp.mkEstimator s.estimator s.estimator_params).beta1_hat
          (estState1 (interp.mkDGP s.dgp s.dgp_params)
            (interp.mkEstimator s.estimator s.estimator_params)
            s.sample_size (some s.first_seed) (i + 1))
          - (interp.mkDGP s.dgp s.dgp_params).beta1)))
    ∧ (summarizeResults2 dgp2 tst (simulate2 dgp2 tst n_sim n_obs fs)).power =
        listMean ((List.range n_sim).map (fun i =>
          boolToRat (tst.decision (testState2 dgp2 tst n_obs fs (i + 1))))) := by
  constructor
  · rw [runAll1_dictGet, filter_name_eq_of_nodup l hnd s hs]
    have h1 : runScenario1 interp s =
        listMean ((simulate1 (interp.mkDGP s.dgp s.dgp_params)
          (interp.mkEstimator s.estimator s.estimator_params)
          s.n_simulations s.sample_size (some s.first_seed)).errors) := rfl
    have h2 : (simulate1 (interp.mkDGP s.dgp s.dgp_params)
          (interp.mkEstimator s.estimator s.estimator_params)
          s.n_simulations s.sample_size (some s.first_seed)).errors =
        (List.range s.n_simulations).map (fun i =>
          (interp.mkEstimator s.estimator s.estimator_params).beta1_hat
            (estState1 (interp.mkDGP s.dgp s.dgp_params)
              (interp.mkEstimator s.estimator s.estimator_params)
              s.sample_size (some s.first_seed) (i + 1))
            - (interp.mkDGP s.dgp s.dgp_params).beta1) := by
      rw [simulate1_eq]
    rw [List.getLast?_singleton]
    show some (runScenario1 interp s) = _
    rw [h1, h2]
  · have h2 : (simulate2 dgp2 tst n_sim n_obs fs).test_decisions =
        (List.range n_sim).map (fun i =>
          boolToRat (tst.decision (testState2 dgp2 tst n_obs fs (i + 1)))) := by
      rw [simulate2_eq]
    rw [show (summarizeResults2 dgp2 tst (simulate2 dgp2 tst n_sim n_obs fs)).power =
        listMean ((simulate2 dgp2 tst n_sim n_obs fs).test_decisions) from rfl, h2]

/-- Witness for C4 on a one-scenario list. -/
theorem claim_C4_witness :
    (([tinyScenario1].map SimulationScenario1.name).Nodup
      ∧ tinyScenario1 ∈ [tinyScenario1])
    ∧ dictGet (runAll1 unitInterp1 [tinyScenario1]) tinyScenario1.name =
        some (listMean ((List.range tinyScenario1.n_simulations).map (fun i =>
          (unitInterp1.mkEstimator tinyScenario1.estimator
            tinyScenario1.estimator_params).beta1_hat
            (estState1 (unitInterp1.mkDGP tinyScenario1.dgp tinyScenario1.dgp_params)
              (unitInterp1.mkEstimator tinyScenario1.estimator
                tinyScenario1.estimator_params)
              tinyScenario1.sample_size (some tinyScenario1.first_seed) (i + 1))
            - (unitInterp1.mkDGP tinyScenario1.dgp tinyScenario1.dgp_params).beta1))) :=
  ⟨⟨by decide, by decide⟩,
   (claim_C4 unitInterp1 [tinyScenario1] (by decide) tinyScenario1 (by decide)
     unitDGP2 unitStatTest 1 1 none).1⟩

/-! ### Claim C5 -/

/-- C5: `SimulationOrchestratorParallel` and
`SimulationOrchestratorSequential` compute each per-scenario result with
the same per-scenario function; when no scenario raises, the parallel
`summary_results` (collected in completion order, a permutation of the
scenario list) is a permutation of the sequential `summary_results`. -/
theorem claim_C5 {Data τ : Type} (interp : Interp2 Data τ)
    (scens order : List SimulationScenario2) (hperm : order.Perm scens) :
    (∀ s : SimulationScenario2,
      runSingleScenarioPar interp s = runSingleScenarioSeq interp s)
    ∧ runAllParallel2 interp order = order.map (runSingleScenarioPar interp)
    ∧ runAllSequential2 interp scens = scens.map (runSingleScenarioSeq interp)
    ∧ (runAllParallel2 interp order).Perm (runAllSequential2 interp scens) := by
  refine ⟨fun s => rfl, ?_, ?_, ?_⟩
  · rw [runAllParallel2, foldl_append_singleton, List.nil_append]
  · rw [runAllSequential2, foldl_append_singleton, List.nil_append]
  · rw [runAllParallel2, runAllSequential2, foldl_append_singleton,
      foldl_append_singleton, List.nil_append, List.nil_append]
    exact hperm.map (runSingleScenarioSeq interp)

/-- Witness for C5: two scenarios completing in swapped order still give a
permutation of the sequential results. -/
theorem claim_C5_witness :
    ([tinyScenario2', tinyScenario2].Perm [tinyScenario2, tinyScenario2'])
    ∧ (runAllParallel2 unitInterp2 [tinyScenario2', tinyScenario2]).Perm
        (runAllSequential2 unitInterp2 [tinyScenario2, tinyScenario2']) :=
  ⟨by decide,
   (claim_C5 unitInterp2 [tinyScenario2, tinyScenario2']
      [tinyScenario2', tinyScenario2] (by decide)).2.2.2⟩

/-! ### Claim C6 -/

/-- C6: an exception raised by `dgp.sample` or by `fit`/`test` during
replication `i` of `simulate` propagates unchanged to the caller, with no
retry and no replication after `i` executed; in the parallel orchestrator
an exception raised inside a scenario task is re-raised in `run_all` by
`future.result()`. -/
theorem claim_C6 {Data σ ε : Type} (dgp : DGP1E Data ε) (est : Estimator1E Data σ ε)
    (n_sim n_obs : Nat) (fs : Option Int) (i : Nat) (hi : i < n_sim) (s : σ)
    (hok : (simulate1E dgp est i n_obs fs).state = Except.ok s) :
    (∀ e : ε, dgp.sample n_obs (seedArg fs i) = Except.error e →
      (simulate1E dgp est n_sim n_obs fs).state = Except.error e
      ∧ (simulate1E dgp est n_sim n_obs fs).sampleSeeds =
          (List.range (i + 1)).map (seedArg fs)
      ∧ (simulate1E dgp est n_sim n_obs fs).fitCalls = i)
    ∧ (∀ (d : Data) (e : ε), dgp.sample n_obs (seedArg fs i) = Except.ok d →
        est.fit s d = Except.error e →
        (simulate1E dgp est n_sim n_obs fs).state = Except.error e
        ∧ (simulate1E dgp est n_sim n_obs fs).sampleSeeds =
            (List.range (i + 1)).map (seedArg fs)
        ∧ (simulate1E dgp est n_sim n_obs fs).fitCalls = i + 1)
    ∧ (∀ (task : SimulationScenario2 → Except ε Summary2)
        (done rest : List SimulationScenario2) (s₂ : SimulationScenario2) (e : ε),
        (∀ x ∈ done, ∃ r, task x = Except.ok r) → task s₂ = Except.error e →
        runAllParallel2E task (done ++ s₂ :: rest) = Except.error e) := by
  obtain ⟨hseeds, hfits, herrs⟩ := simulate1E_ok_inv dgp est n_obs fs i s hok
  refine ⟨?_, ?_, ?_⟩
  · intro e hsample
    have hstep : simulate1E dgp est (i + 1) n_obs fs =
        { state := Except.error e,
          errors := (simulate1E dgp est i n_obs fs).errors,
          sampleSeeds := (simulate1E dgp est i n_obs fs).sampleSeeds ++ [seedArg fs i],
          fitCalls := (simulate1E dgp est i n_obs fs).fitCalls } := by
      rw [simulate1E]
      simp [hok, hsample]
    have habs := simulate1E_error_absorb dgp est n_obs fs (i + 1) e
      (by rw [hstep]) n_sim hi
    rw [habs, hstep]
    refine ⟨rfl, ?_, hfits⟩
    rw [hseeds, List.range_succ, List.map_append]
    rfl
  · intro d e hsample hfit
    have hstep : simulate1E dgp est (i + 1) n_obs fs =
        { state := Except.error e,
          errors := (simulate1E dgp est i n_obs fs).errors,
          sampleSeeds := (simulate1E dgp est i n_obs fs).sampleSeeds ++ [seedArg fs i],
          fitCalls := (simulate1E dgp est i n_obs fs).fitCalls + 1 } := by
      rw [simulate1E]
      simp [hok, hsample, hfit]
    have habs := simulate1E_error_absorb dgp est n_obs fs (i + 1) e
      (by rw [hstep]) n_sim hi
    rw [habs, hstep]
    refine ⟨rfl, ?_, by rw [hfits]⟩
    rw [hseeds, List.range_succ, List.map_append]
    rfl
  · intro task done rest s₂ e hdone htask
    exact runAllParallel2E_foldlM_aux task done s₂ rest e hdone htask []

/-- Witness for C6: the second replication's `sample` raises `"boom"`,
which escapes from a three-replication `simulate` call. -/
theorem claim_C6_witness :
    ((simulate1E failDGP1E okEstimator1E 1 5 (some 7)).state = Except.ok ()
      ∧ failDGP1E.sample 5 (seedArg (some 7) 1) = Except.error "boom")
    ∧ (simulate1E failDGP1E okEstimator1E 3 5 (some 7)).state =
        Except.error "boom" :=
  ⟨⟨rfl, rfl⟩,
   ((claim_C6 failDGP1E okEstimator1E 3 5 (some 7) 1 (by decide) ()
      rfl).1 "boom" rfl).1⟩

/-! ### Claim C7 -/

/-- C7: after `test(x, y)`, `WaldWithOLS.decision` is true iff the Wald
p-value is at most `0.05`, and `BonferronigMultipleTWithOLS.decision` is
true iff at least one Bonferroni-corrected per-coefficient t-test
rejects. -/
theorem claim_C7 {Data : Type} (olsFit : Data → OLSFitResult)
    (multipletestsReject : List ℚ → List Bool) (fitRes : OLSFitResult)
    (t : Bool) (d : Data) :
    (WaldWithOLS.testDecision fitRes = true ↔ fitRes.waldPValue ≤ 1/20)
    ∧ ((mkWaldWithOLS olsFit).decision ((mkWaldWithOLS olsFit).test t d) =
        WaldWithOLS.testDecision (olsFit d))
    ∧ (BonferronigMultipleTWithOLS.testDecision multipletestsReject fitRes = true ↔
        ∃ b ∈ multipletestsReject (fitRes.tPValues.drop 1), b = true)
    ∧ ((mkBonferronigMultipleTWithOLS olsFit multipletestsReject).decision
        ((mkBonferronigMultipleTWithOLS olsFit multipletestsReject).test t d) =
        BonferronigMultipleTWithOLS.testDecision multipletestsReject (olsFit d)) := by
  refine ⟨?_, rfl, ?_, rfl⟩
  · simp [WaldWithOLS.testDecision]
  · simp [BonferronigMultipleTWithOLS.testDecision, List.countP_pos_iff]

/-! ### Claim C3 -/

/-- C3 counterexample: it is not the case that every DGP class in the
repository can have its `sample` invoked as `sample(n, seed)`; the
`SKImbalancedTwoClassesDGP` entry fails the check. -/
theorem claim_C3_counterexample :
    (repoDGPSampleSigs.all (fun p => acceptsSizeAndSeed p.2)) = false := by
  decide

/-- C3 amended: every DGP class except `SKImbalancedTwoClassesDGP` exposes
`sample(n_obs, seed)`; `SKImbalancedTwoClassesDGP.sample` takes only
`seed` (its sample sizes are constructor attributes); and every DGP class
takes a seed as the final `sample` parameter. -/
theorem claim_C3_amended :
    ((repoDGPSampleSigs.filter
        (fun p => p.1 ≠ "SKImbalancedTwoClassesDGP")).all
      (fun p => acceptsSizeAndSeed p.2)) = true
    ∧ ((repoDGPSampleSigs.filter
        (fun p => p.1 = "SKImbalancedTwoClassesDGP")).map
      (fun p => p.2.params)) = [["seed"]]
    ∧ (repoDGPSampleSigs.all
        (fun p => p.2.params.getLast? == some "seed")) = true := by
  refine ⟨by decide, by decide, by decide⟩

/-! ### Claim C10 -/

/-- C10: for every non-empty data list and `alpha ∈ (0, 1)`,
`asymptotic_ci_variance` returns `(lower, upper)` with
`0 ≤ lower ≤ upper`: the lower limit is truncated at zero by `max(0, ...)`
and the upper limit is the non-negative variance estimate plus a
non-negative margin (given that `np.sqrt` is non-negative on non-negative
inputs and `norm.ppf` is non-negative at arguments of at least `1/2`). -/
theorem claim_C10 (sqrtFn normPpf : ℚ → ℚ) (data : List ℚ) (alpha : ℚ)
    (hdata : data ≠ [])
    (hsqrt : ∀ x : ℚ, 0 ≤ x → 0 ≤ sqrtFn x)
    (hppf : ∀ q : ℚ, 1/2 ≤ q → 0 ≤ normPpf q)
    (halpha : 0 < alpha ∧ alpha < 1) :
    0 ≤ (asymptotic_ci_variance sqrtFn normPpf data alpha).1
    ∧ (asymptotic_ci_variance sqrtFn normPpf data alpha).1 ≤
        (asymptotic_ci_variance sqrtFn normPpf data alpha).2
    ∧ 0 ≤ mle_variance data
    ∧ (asymptotic_ci_variance sqrtFn normPpf data alpha).2 =
        mle_variance data + normPpf (1 - alpha / 2) *
          sqrtFn (2 * mle_variance data ^ 2 / (data.length : ℚ))
    ∧ 0 ≤ normPpf (1 - alpha / 2) *
        sqrtFn (2 * mle_variance data ^ 2 / (data.length : ℚ)) := by
  have hvar : 0 ≤ mle_variance data := by
    rw [mle_variance]
    refine div_nonneg (List.sum_nonneg ?_) (by positivity)
    intro x hx
    obtain ⟨y, _, rfl⟩ := List.mem_map.mp hx
    positivity
  have hse : 0 ≤ sqrtFn (2 * mle_variance data ^ 2 / (data.length : ℚ)) :=
    hsqrt _ (by positivity)
  have hz : 0 ≤ normPpf (1 - alpha / 2) := by
    refine hppf _ ?_
    have := halpha.2
    linarith
  have hmargin : 0 ≤ normPpf (1 - alpha / 2) *
      sqrtFn (2 * mle_variance data ^ 2 / (data.length : ℚ)) :=
    mul_nonneg hz hse
  have hlow : (asymptotic_ci_variance sqrtFn normPpf data alpha).1 =
      max 0 (mle_variance data - normPpf (1 - alpha / 2) *
        sqrtFn (2 * mle_variance data ^ 2 / (data.length : ℚ))) := rfl
  have hup : (asymptotic_ci_variance sqrtFn normPpf data alpha).2 =
      mle_variance data + normPpf (1 - alpha / 2) *
        sqrtFn (2 * mle_variance data ^ 2 / (data.length : ℚ)) := rfl
  refine ⟨?_, ?_, hvar, hup, hmargin⟩
  · rw [hlow]
    exact le_max_left 0 _
  · rw [hlow, hup]
    refine max_le (by linarith) (by linarith)

/-- Witness for C10 on the data list `[1, 2]` with `alpha = 0.05`. -/
theorem claim_C10_witness :
    (([1, 2] : List ℚ) ≠ [] ∧ (0 : ℚ) < 1/20 ∧ (1 : ℚ)/20 < 1)
    ∧ 0 ≤ (asymptotic_ci_variance (fun x => x) (fun q => q) [1, 2] (1/20)).1
    ∧ (asymptotic_ci_variance (fun x => x) (fun q => q) [1, 2] (1/20)).1 ≤
        (asymptotic_ci_variance (fun x => x) (fun q => q) [1, 2] (1/20)).2 :=
  ⟨⟨by decide, by norm_num, by norm_num⟩,
   (claim_C10 (fun x => x) (fun q => q) [1, 2] (1/20) (by decide)
      (fun x hx => hx) (fun q hq => le_trans (by norm_num) hq)
      ⟨by norm_num, by norm_num⟩).1,
   (claim_C10 (fun x => x) (fun q => q) [1, 2] (1/20) (by decide)
      (fun x hx => hx) (fun q hq => le_trans (by norm_num) hq)
      ⟨by norm_num, by norm_num⟩).2.1⟩

end SimCourse
